import Mathlib

/-!
Verification of the XPT2046 resistive-touch-controller driver
(`xpt2046.c`, `xpt2046_low_if.c`).

Shallow embedding conventions:
* C `int64_t` values are modelled as unbounded `Int`; at every point where the
  source narrows a value to `int32_t` (an explicit cast, an assignment to an
  `int32_t` object, or `int`-width arithmetic on already-narrowed operands) the
  embedding applies the two's-complement wrap `i32`.  `uint16_t` and `uint32_t`
  narrowing use `u16` and `u32`.
* C integer division on `int64_t` truncates toward zero, which is `Int.tdiv`.
* Configuration constants that live in `xpt2046_cfg.h` (display bounds
  `XPT2046_DISPLAY_MAX_X/Y`, filter depth `XPT2046_FILTER_WIN_SAMP`, the three
  anchor points `XPT2046_POINT_*_XY`, ADC resolution and reference mode) are
  not part of the sources; they are taken as parameters, and where a concrete
  value is needed the value comes from the specification.
* The floating-point pressure formula of `xpt2046_read_data_from_controler`
  is abstracted as an uninterpreted function parameter: no property proved
  here depends on the computed pressure value, only on how it is stored,
  held and returned.
* External I/O (SPI transport, the touch interrupt line, display drawing,
  the HAL tick source) is modelled by explicit oracle inputs; the transport
  exchanges a cycle performs are returned as an explicit list so that
  "performs no transport exchanges" is a statement about the model.
-/

namespace XPT2046

/-- Two's-complement wrap of an unbounded integer into the `int32_t` range,
modelling a C cast/assignment to `int32_t` (and wrapping `int` arithmetic). -/
def i32 (x : Int) : Int := (x + 2 ^ 31) % 2 ^ 32 - 2 ^ 31

/-- Conversion of an unbounded integer to `uint16_t` (modulo 2^16). -/
def u16 (x : Int) : Int := x % 2 ^ 16

/-- Conversion of an unbounded integer to `uint32_t` (modulo 2^32). -/
def u32 (x : Int) : Int := x % 2 ^ 32

/-- A display-space or raw-touch-space point, fields of C type `int64_t`
(struct `xpt2046_point_t`, `xpt2046.c` lines 53-57). -/
structure Point where
  x : Int
  y : Int
deriving DecidableEq

/-- The three calibration points `[eXPT2046_CAL_P_NUM_OF]` of `xpt2046_cal_data_t`;
`p0`, `p1`, `p2` are array indices 0, 1, 2. -/
structure Points where
  p0 : Point
  p1 : Point
  p2 : Point
deriving DecidableEq

/-- The seven `int32_t` calibration factors `factors[7]` of `xpt2046_cal_data_t`;
`k0` .. `k6` are array indices 0 .. 6. -/
structure Factors where
  k0 : Int
  k1 : Int
  k2 : Int
  k3 : Int
  k4 : Int
  k5 : Int
  k6 : Int
deriving DecidableEq

/-- Embedding of `xpt2046_calculate_factors` (`xpt2046.c` lines 786-812).
`Dp` are the display (anchor) points, `Tp` the captured touch points, both with
`int64_t` coordinates.  Inner products are computed in `int64_t` (exact `Int`
here); each parenthesised `(int32_t)` cast of the source is an `i32`, the
`int` subtraction/addition of the already-cast operands is wrapped with `i32`
as well, matching two's-complement evaluation.  In `factors[3]` and
`factors[6]` the source casts bind to the single factor `p_Tp[i].x`
(cast precedence), so only that operand is narrowed before the `int64_t`
multiplication. -/
def xpt2046_calculate_factors (Dp Tp : Points) : Factors :=
  { k0 := i32 (i32 ((Tp.p0.x - Tp.p2.x) * (Tp.p1.y - Tp.p2.y))
             - i32 ((Tp.p1.x - Tp.p2.x) * (Tp.p0.y - Tp.p2.y)))
    k1 := i32 (i32 ((Dp.p0.x - Dp.p2.x) * (Tp.p1.y - Tp.p2.y))
             - i32 ((Dp.p1.x - Dp.p2.x) * (Tp.p0.y - Tp.p2.y)))
    k2 := i32 (i32 ((Tp.p0.x - Tp.p2.x) * (Dp.p1.x - Dp.p2.x))
             - i32 ((Dp.p0.x - Dp.p2.x) * (Tp.p1.x - Tp.p2.x)))
    k3 := i32 (i32 (i32 (Tp.p0.y * (i32 Tp.p2.x * Dp.p1.x - i32 Tp.p1.x * Dp.p2.x))
                  + i32 (Tp.p1.y * (i32 Tp.p0.x * Dp.p2.x - i32 Tp.p2.x * Dp.p0.x)))
             + i32 (Tp.p2.y * (i32 Tp.p1.x * Dp.p0.x - i32 Tp.p0.x * Dp.p1.x)))
    k4 := i32 (i32 ((Dp.p0.y - Dp.p2.y) * (Tp.p1.y - Tp.p2.y))
             - i32 ((Dp.p1.y - Dp.p2.y) * (Tp.p0.y - Tp.p2.y)))
    k5 := i32 (i32 ((Tp.p0.x - Tp.p2.x) * (Dp.p1.y - Dp.p2.y))
             - i32 ((Dp.p0.y - Dp.p2.y) * (Tp.p1.x - Tp.p2.x)))
    k6 := i32 (i32 (i32 (Tp.p0.y * (i32 Tp.p2.x * Dp.p1.y - i32 Tp.p1.x * Dp.p2.y))
                  + i32 (Tp.p1.y * (i32 Tp.p0.x * Dp.p2.y - i32 Tp.p2.x * Dp.p0.y)))
             + i32 (Tp.p2.y * (i32 Tp.p1.x * Dp.p0.y - i32 Tp.p0.x * Dp.p1.y))) }

/-- Reference affine solver in exact wide-integer arithmetic.  Modelled from
the spec, section 4.5: the same Cramer's-rule expansion as
`xpt2046_calculate_factors`, but with "all arithmetic ... done in a wide
signed integer domain to avoid overflow", i.e. with every `int32_t`
narrowing removed.  Used to express when the source solver's `int32_t`
results coincide with the exact ones (no overflow). -/
def calculate_factors_exact (Dp Tp : Points) : Factors :=
  { k0 := (Tp.p0.x - Tp.p2.x) * (Tp.p1.y - Tp.p2.y)
        - (Tp.p1.x - Tp.p2.x) * (Tp.p0.y - Tp.p2.y)
    k1 := (Dp.p0.x - Dp.p2.x) * (Tp.p1.y - Tp.p2.y)
        - (Dp.p1.x - Dp.p2.x) * (Tp.p0.y - Tp.p2.y)
    k2 := (Tp.p0.x - Tp.p2.x) * (Dp.p1.x - Dp.p2.x)
        - (Dp.p0.x - Dp.p2.x) * (Tp.p1.x - Tp.p2.x)
    k3 := Tp.p0.y * (Tp.p2.x * Dp.p1.x - Tp.p1.x * Dp.p2.x)
        + Tp.p1.y * (Tp.p0.x * Dp.p2.x - Tp.p2.x * Dp.p0.x)
        + Tp.p2.y * (Tp.p1.x * Dp.p0.x - Tp.p0.x * Dp.p1.x)
    k4 := (Dp.p0.y - Dp.p2.y) * (Tp.p1.y - Tp.p2.y)
        - (Dp.p1.y - Dp.p2.y) * (Tp.p0.y - Tp.p2.y)
    k5 := (Tp.p0.x - Tp.p2.x) * (Dp.p1.y - Dp.p2.y)
        - (Dp.p0.y - Dp.p2.y) * (Tp.p1.x - Tp.p2.x)
    k6 := Tp.p0.y * (Tp.p2.x * Dp.p1.y - Tp.p1.x * Dp.p2.y)
        + Tp.p1.y * (Tp.p0.x * Dp.p2.y - Tp.p2.x * Dp.p0.y)
        + Tp.p2.y * (Tp.p1.x * Dp.p0.y - Tp.p0.x * Dp.p1.y) }

/-- Embedding of `xpt2046_limit_cal_X_data` (`xpt2046.c` lines 854-872).
`maxX` models the configuration constant `XPT2046_DISPLAY_MAX_X`. -/
def xpt2046_limit_cal_X_data (maxX unlimited_data : Int) : Int :=
  if unlimited_data < 0 then 0
  else if unlimited_data > maxX then maxX
  else unlimited_data

/-- Embedding of `xpt2046_limit_cal_Y_data` (`xpt2046.c` lines 882-900).
`maxY` models the configuration constant `XPT2046_DISPLAY_MAX_Y`. -/
def xpt2046_limit_cal_Y_data (maxY unlimited_data : Int) : Int :=
  if unlimited_data < 0 then 0
  else if unlimited_data > maxY then maxY
  else unlimited_data

/-- Embedding of `xpt2046_calibrate_data` (`xpt2046.c` lines 824-844).
`X`, `Y` are the raw `uint16_t` inputs (widened to `int64_t` by the source);
the numerators and the truncating division are `int64_t` arithmetic, the
argument of each limit function is narrowed to its `int32_t` parameter, and
the final stores narrow to `uint16_t`.  Returns the calibrated `(x, y)`. -/
def xpt2046_calibrate_data (maxX maxY X Y : Int) (f : Factors) : Int × Int :=
  let Tx : Int := X
  let Ty : Int := Y
  let DxRaw : Int := Int.tdiv (f.k1 * Tx + f.k2 * Ty + f.k3) f.k0
  let DyRaw : Int := Int.tdiv (f.k4 * Tx + f.k5 * Ty + f.k6) f.k0
  let Dx : Int := xpt2046_limit_cal_X_data maxX (i32 DxRaw)
  let Dy : Int := xpt2046_limit_cal_Y_data maxY (i32 DyRaw)
  (u16 Dx, u16 Dy)

/-- Assembly of the control byte of `xpt2046_low_if_exchange`
(`xpt2046_low_if.c` lines 275-283), per the little-endian bit-field layout of
`xpt2046_control_t` (lines 37-48): bits 1-0 power-down mode, bit 2
single-ended/differential reference, bit 3 ADC resolution mode, bits 6-4
channel address, bit 7 start/source.  Each field is masked to its declared
bit width, as a C bit-field store does. -/
def xpt2046_control_byte (addr pd mode serDfr source : Nat) : Nat :=
  pd % 4 + serDfr % 2 * 4 + mode % 2 * 8 + addr % 8 * 16 + source % 2 * 128

/-- Decoding of the conversion reply of `xpt2046_low_if_exchange`
(`xpt2046_low_if.c` lines 290-296): the big-endian 16-bit word is
`rx1 * 256 + rx2` from reply bytes 1 and 2 of the 3-byte exchange, and the
bit-field `adc_result` of `xpt2046_result_t` (lines 51-65) sits above the
3 reserved low bits: 12 bits wide when `XPT2046_ADC_RESOLUTION == 0`,
otherwise 8 bits wide. -/
def xpt2046_result_decode (res12 : Bool) (rx1 rx2 : Nat) : Nat :=
  let w : Nat := rx1 % 256 * 256 + rx2 % 256
  if res12 then w / 8 % 4096 else w / 8 % 256

/-- Embedding of `xpt2046_low_if_exchange` (`xpt2046_low_if.c` lines 265-299).
`adcRes` and `refMode` model the configuration constants
`XPT2046_ADC_RESOLUTION` and `XPT2046_REF_MODE`; `rx1`, `rx2` are the two
payload bytes the transport places in `rx_data[1]`, `rx_data[2]`.  Returns
the transmitted control byte `tx_data[0]` and the decoded `adc_result`
stored through `p_adc_result`.  (The C function always returns `eXPT2046_OK`:
the transport status is never inspected.) -/
def xpt2046_low_if_exchange (adcRes refMode addr pd start : Nat) (rx1 rx2 : Nat) :
    Nat × Nat :=
  (xpt2046_control_byte addr pd adcRes refMode start,
   xpt2046_result_decode (adcRes == 0) rx1 rx2)

/-- One update of the filter's static write index `samp_cnt`
(`xpt2046_filter_data`, `xpt2046.c` lines 412-419): wrap to 0 only once the
index has reached or passed `N = XPT2046_FILTER_WIN_SAMP`, else increment. -/
def xpt2046_filter_samp_cnt_step (N c : Nat) : Nat :=
  if c ≥ N then 0 else c + 1

/-- The value of `samp_cnt` at which the (k+1)-th invocation of
`xpt2046_filter_data` stores into `samp_buf` (`xpt2046.c` lines 407-409):
the index starts at 0 and is updated by `xpt2046_filter_samp_cnt_step`
after every store. -/
def xpt2046_filter_write_index (N k : Nat) : Nat :=
  Nat.iterate (xpt2046_filter_samp_cnt_step N) k 0

/-- The module status codes `xpt2046_status_t` (`xpt2046.h` lines 40-45). -/
inductive Status where
  | ok
  | err
  | calInProgress
deriving DecidableEq

/-- The calibration FSM states `xpt2046_cal_state_t` (`xpt2046.c` lines 81-88). -/
inductive CalFsmState where
  | normal
  | p1Acq
  | p2Acq
  | p3Acq
  | calcFactors
deriving DecidableEq

/-- The global touch reading `g_touch` of type `xpt2046_touch_t`
(`xpt2046.c` lines 44-50, 130): `page`/`col`/`force` are `uint16_t`. -/
structure Touch where
  page : Int
  col : Int
  force : Int
  pressed : Bool
deriving DecidableEq

/-- The global calibration data `g_cal_data` of type `xpt2046_cal_data_t`
(`xpt2046.c` lines 70-78, 133-146). -/
structure CalData where
  Dp : Points
  Tp : Points
  factors : Factors
  start : Bool
  busy : Bool
  done : Bool
deriving DecidableEq

/-- The FSM bookkeeping `g_cal_fsm` of type `xpt2046_fsm_t`
(`xpt2046.c` lines 91-104, 149). -/
structure Fsm where
  cur : CalFsmState
  next : CalFsmState
  duration : Int
  firstEntry : Bool
deriving DecidableEq

/-- The mutable module state of `xpt2046.c`: the globals `g_touch`,
`g_cal_data`, `g_cal_fsm`, `gb_is_init`, the static `tick` of
`xpt2046_fms_manager` and the static `point_touched` flags of the three
acquisition states.  (The sampler statics `X_prev`/`Y_prev`/`force_prev` are
modelled separately with the sampler itself.) -/
structure ModState where
  touch : Touch
  cal : CalData
  fsm : Fsm
  tick : Int
  p1Touched : Bool
  p2Touched : Bool
  p3Touched : Bool
  isInit : Bool
deriving DecidableEq

/-- The cap applied by `XPT2046_LIMIT_FMS_DURATION` (`xpt2046.c` lines 40-41). -/
def XPT2046_LIMIT_FMS_DURATION (time : Int) : Int :=
  if time > 1000000 then 1000000 else time

/-- Embedding of `xpt2046_fms_manager` (`xpt2046.c` lines 525-544).
`tickNow` is the value returned by the external `HAL_GetTick()` this cycle;
`uint32_t` subtraction and accumulation wrap with `u32`. -/
def xpt2046_fms_manager (tickNow : Int) (s : ModState) : ModState :=
  if s.fsm.cur ≠ s.fsm.next then
    { s with fsm := { s.fsm with cur := s.fsm.next, duration := 0, firstEntry := true },
             tick := tickNow }
  else
    let d : Int := u32 (s.fsm.duration + u32 (tickNow - s.tick))
    { s with fsm := { s.fsm with duration := XPT2046_LIMIT_FMS_DURATION d,
                                 firstEntry := false },
             tick := tickNow }

/-- Embedding of `xpt2046_fsm_normal` (`xpt2046.c` lines 553-562). -/
def xpt2046_fsm_normal (s : ModState) : ModState :=
  if s.cal.start = true then
    { s with cal := { s.cal with start := false, busy := true },
             fsm := { s.fsm with next := CalFsmState.p1Acq } }
  else s

/-- Embedding of `xpt2046_fsm_p1_acq` (`xpt2046.c` lines 571-613).  The
display clear/draw calls are external output with no effect on module state;
`point_touched` is the static `p1Touched`. -/
def xpt2046_fsm_p1_acq (s : ModState) : ModState :=
  if s.fsm.firstEntry = true then
    { s with p1Touched := false }
  else if s.p1Touched = false then
    if s.touch.pressed = true then { s with p1Touched := true } else s
  else
    let s1 := { s with cal :=
      { s.cal with Tp := { s.cal.Tp with p0 := ⟨s.touch.page, s.touch.col⟩ } } }
    if s1.touch.pressed = false then
      { s1 with fsm := { s1.fsm with next := CalFsmState.p2Acq } }
    else s1

/-- Embedding of `xpt2046_fsm_p2_acq` (`xpt2046.c` lines 622-661). -/
def xpt2046_fsm_p2_acq (s : ModState) : ModState :=
  if s.fsm.firstEntry = true then
    { s with p2Touched := false }
  else if s.p2Touched = false then
    if s.touch.pressed = true then { s with p2Touched := true } else s
  else
    let s1 := { s with cal :=
      { s.cal with Tp := { s.cal.Tp with p1 := ⟨s.touch.page, s.touch.col⟩ } } }
    if s1.touch.pressed = false then
      { s1 with fsm := { s1.fsm with next := CalFsmState.p3Acq } }
    else s1

/-- Embedding of `xpt2046_fsm_p3_acq` (`xpt2046.c` lines 670-709). -/
def xpt2046_fsm_p3_acq (s : ModState) : ModState :=
  if s.fsm.firstEntry = true then
    { s with p3Touched := false }
  else if s.p3Touched = false then
    if s.touch.pressed = true then { s with p3Touched := true } else s
  else
    let s1 := { s with cal :=
      { s.cal with Tp := { s.cal.Tp with p2 := ⟨s.touch.page, s.touch.col⟩ } } }
    if s1.touch.pressed = false then
      { s1 with fsm := { s1.fsm with next := CalFsmState.calcFactors } }
    else s1

/-- Embedding of `xpt2046_fsm_calc_factors` (`xpt2046.c` lines 718-734):
runs the solver on the stored points, stores the factors, schedules `normal`
and unconditionally sets `busy := false`, `done := true` — there is no guard
on the solver denominator `factors[0]`. -/
def xpt2046_fsm_calc_factors (s : ModState) : ModState :=
  let f := xpt2046_calculate_factors s.cal.Dp s.cal.Tp
  { s with cal := { s.cal with factors := f, busy := false, done := true },
           fsm := { s.fsm with next := CalFsmState.normal } }

/-- Embedding of `xpt2046_cal_hndl` (`xpt2046.c` lines 483-516): run the
FSM manager, then dispatch on the current state. -/
def xpt2046_cal_hndl (tickNow : Int) (s : ModState) : ModState :=
  let s1 := xpt2046_fms_manager tickNow s
  match s1.fsm.cur with
  | CalFsmState.normal => xpt2046_fsm_normal s1
  | CalFsmState.p1Acq => xpt2046_fsm_p1_acq s1
  | CalFsmState.p2Acq => xpt2046_fsm_p2_acq s1
  | CalFsmState.p3Acq => xpt2046_fsm_p3_acq s1
  | CalFsmState.calcFactors => xpt2046_fsm_calc_factors s1

/-- Embedding of `xpt2046_start_calibration` (`xpt2046.c` lines 446-471):
returns the status and the updated state. -/
def xpt2046_start_calibration (s : ModState) : Status × ModState :=
  if s.isInit = true then
    if s.cal.busy = false then
      (Status.ok, { s with cal := { s.cal with start := true, done := false } })
    else
      (Status.calInProgress, s)
  else
    (Status.err, s)

/-- Embedding of `xpt2046_is_calibrated` (`xpt2046.c` lines 909-912). -/
def xpt2046_is_calibrated (s : ModState) : Bool :=
  s.cal.done

/-- Embedding of `xpt2046_set_cal_factors` (`xpt2046.c` lines 922-929):
unconditionally marks calibration done and copies the seven factors. -/
def xpt2046_set_cal_factors (f : Factors) (s : ModState) : ModState :=
  { s with cal := { s.cal with done := true, factors := f } }

/-- Embedding of `xpt2046_get_cal_factors` (`xpt2046.c` lines 939-942).
`callerBuf` is the caller's 7-element buffer; the result is that buffer after
the call.  The C body assigns the address of `g_cal_data.factors` to its
*local pointer parameter* `p_factors` and never stores through the caller's
pointer, so the caller's buffer is returned unchanged. -/
def xpt2046_get_cal_factors (callerBuf : List Int) (_s : ModState) : List Int :=
  callerBuf

/-- An externally observable step of the module, as driven by a caller:
one periodic `xpt2046_hndl` cycle or one exposed calibration operation.
For a cycle, `page`/`col`/`force`/`pressed` are the values the sampling
pipeline (sampler, optional filter, optional mapper) produces this cycle —
the calibration flags and FSM depend on that pipeline only through the
values stored into `g_touch` (`xpt2046.c` lines 308-312), so they are taken
as an arbitrary per-cycle input; `tickNow` is the HAL tick read this cycle. -/
inductive Event where
  | cycle (page col force : Int) (pressed : Bool) (tickNow : Int)
  | startCal
  | setFactors (f : Factors)

/-- One `Event` applied to the module state: a `cycle` stores the pipeline
output into `g_touch` and then runs `xpt2046_cal_hndl`, exactly as
`xpt2046_hndl` does (`xpt2046.c` lines 285-316); the operations apply their
embeddings (the status returned by `xpt2046_start_calibration` is not part
of the state). -/
def stepEvent (s : ModState) : Event → ModState
  | Event.cycle page col force pressed tickNow =>
      xpt2046_cal_hndl tickNow { s with touch := ⟨page, col, force, pressed⟩ }
  | Event.startCal => (xpt2046_start_calibration s).2
  | Event.setFactors f => xpt2046_set_cal_factors f s

/-- Iterated `stepEvent` over a list of events. -/
def runEvents (s : ModState) : List Event → ModState
  | [] => s
  | e :: t => runEvents (stepEvent s e) t

/-- The three anchor display points.  Modelled from the spec: the
configuration constants `XPT2046_POINT_1_XY` .. `XPT2046_POINT_3_XY` live in
`xpt2046_cfg.h`, which is not among the sources; the values are the anchor
set of the spec's end-to-end scenario (section 8): (10,10), (300,10), (10,300). -/
def specAnchors : Points :=
  ⟨⟨10, 10⟩, ⟨300, 10⟩, ⟨10, 300⟩⟩

/-- The module state immediately after `xpt2046_init` (`xpt2046.c` lines
201-222) with anchor configuration `Dp`: FSM in `normal`, all calibration
flags false (static initialiser of `g_cal_data`, lines 133-146), zero-initialised
statics and `g_touch`, and the (indeterminate in C) `factors` taken as zero. -/
def initState (Dp : Points) : ModState :=
  { touch := ⟨0, 0, 0, false⟩
    cal := { Dp := Dp, Tp := ⟨⟨0, 0⟩, ⟨0, 0⟩, ⟨0, 0⟩⟩,
             factors := ⟨0, 0, 0, 0, 0, 0, 0⟩,
             start := false, busy := false, done := false }
    fsm := ⟨CalFsmState.normal, CalFsmState.normal, 0, false⟩
    tick := 0
    p1Touched := false
    p2Touched := false
    p3Touched := false
    isInit := true }

/-- The claimed cycle-boundary invariant on the calibration flags (claim on
`busy`/`start`/`done` of `g_cal_data`): never both in-progress and requested,
and never done while in progress. -/
def calFlagsInv (s : ModState) : Prop :=
  ¬(s.cal.busy = true ∧ s.cal.start = true) ∧ (s.cal.busy = true → s.cal.done = false)

/-- Strengthened inductive invariant used to establish `calFlagsInv`:
additionally, a pending request implies not-done, an upcoming or active
acquisition/solve phase implies busy-and-not-done, and current and next
state are never both `calcFactors` at a cycle boundary. -/
def calInvStrong (s : ModState) : Prop :=
  calFlagsInv s
  ∧ (s.cal.start = true → s.cal.done = false)
  ∧ ((s.fsm.cur = CalFsmState.p1Acq ∨ s.fsm.cur = CalFsmState.p2Acq
      ∨ s.fsm.cur = CalFsmState.p3Acq
      ∨ s.fsm.next = CalFsmState.p1Acq ∨ s.fsm.next = CalFsmState.p2Acq
      ∨ s.fsm.next = CalFsmState.p3Acq ∨ s.fsm.next = CalFsmState.calcFactors) →
      (s.cal.busy = true ∧ s.cal.start = false ∧ s.cal.done = false))
  ∧ ¬(s.fsm.cur = CalFsmState.calcFactors ∧ s.fsm.next = CalFsmState.calcFactors)

/-- Whether an event is a coefficient injection (`xpt2046_set_cal_factors`). -/
def isSetFactors : Event → Bool
  | Event.setFactors _ => true
  | _ => false

/-- `setFactorsSafe s evs` is true when along the run of `evs` from `s`, every
`setFactors` event happens while no calibration is requested or in progress. -/
def setFactorsSafe : ModState → List Event → Bool
  | _, [] => true
  | s, e :: t =>
      (!isSetFactors e || (!s.cal.busy && !s.cal.start))
      && setFactorsSafe (stepEvent s e) t

/-- Whether this event is a handler cycle that executes the `calcFactors`
state (i.e. the state the FSM manager settles on for this cycle is
`eXPT2046_FSM_CALC_FACTORS`). -/
def cycleExecutesCalc (s : ModState) : Event → Bool
  | Event.cycle page col force pressed tickNow =>
      (xpt2046_fms_manager tickNow
        { s with touch := ⟨page, col, force, pressed⟩ }).fsm.cur
        == CalFsmState.calcFactors
  | _ => false

/-- `noCalcExec s evs` is true when no cycle along the run of `evs` from `s`
executes the `calcFactors` phase. -/
def noCalcExec : ModState → List Event → Bool
  | _, [] => true
  | s, e :: t => !cycleExecutesCalc s e && noCalcExec (stepEvent s e) t

/-- All twelve anchor coordinates lie inside the display rectangle
`[0, maxX] × [0, maxY]`. -/
def anchorsWithin (Dp : Points) (maxX maxY : Int) : Prop :=
  (0 ≤ Dp.p0.x ∧ Dp.p0.x ≤ maxX ∧ 0 ≤ Dp.p0.y ∧ Dp.p0.y ≤ maxY)
  ∧ (0 ≤ Dp.p1.x ∧ Dp.p1.x ≤ maxX ∧ 0 ≤ Dp.p1.y ∧ Dp.p1.y ≤ maxY)
  ∧ (0 ≤ Dp.p2.x ∧ Dp.p2.x ≤ maxX ∧ 0 ≤ Dp.p2.y ∧ Dp.p2.y ≤ maxY)

/-- Anchor points of the C1 counterexample. -/
def cexDp : Points := ⟨⟨100, 50⟩, ⟨200, 300⟩, ⟨0, 0⟩⟩

/-- Touch points of the C1 counterexample: valid `uint16_t` readings, and
non-collinear (the exact solver denominator is 4294836225 ≠ 0), but with
inner solver products overflowing `int32_t`. -/
def cexTp : Points := ⟨⟨65535, 0⟩, ⟨0, 65535⟩, ⟨0, 0⟩⟩

/-- Three collinear captured touch points (all on the line y = x). -/
def collinearTp : Points := ⟨⟨0, 0⟩, ⟨1, 1⟩, ⟨2, 2⟩⟩

/-- A mid-calibration state: the third acquisition has just finished (release
observed, `next = calcFactors` scheduled) with the collinear capture
`collinearTp`; calibration busy, not done, no pending request. -/
def c2State : ModState :=
  { touch := ⟨2, 2, 0, false⟩
    cal := { Dp := specAnchors, Tp := collinearTp,
             factors := ⟨0, 0, 0, 0, 0, 0, 0⟩,
             start := false, busy := true, done := false }
    fsm := ⟨CalFsmState.p3Acq, CalFsmState.calcFactors, 0, false⟩
    tick := 0
    p1Touched := true
    p2Touched := true
    p3Touched := true
    isInit := true }

/-- The sampler statics `X_prev`, `Y_prev`, `force_prev` of
`xpt2046_read_data_from_controler` (`xpt2046.c` lines 334-336). -/
structure SamplerPrev where
  X : Int
  Y : Int
  force : Int
deriving DecidableEq

/-- One cycle's external inputs to the sampler: the touch-interrupt line
(`xpt2046_low_if_get_int() == eXPT2046_INT_ON`) and the four ADC values the
transport would deliver for the X, Y, Z1 and YN(Z2) exchanges. -/
structure SamplerIn where
  intOn : Bool
  rxX : Int
  rxY : Int
  rxZ1 : Int
  rxZ2 : Int
deriving DecidableEq

/-- The per-cycle output of the sampler: the values written through
`p_X`, `p_Y`, `p_force`, `p_is_pressed`. -/
structure RawSample where
  x : Int
  y : Int
  force : Int
  pressed : Bool
deriving DecidableEq

/-- Embedding of `xpt2046_read_data_from_controler` (`xpt2046.c` lines
329-370).  `forceCalc` abstracts the floating-point pressure formula of line
354 (floats are outside this embedding; its `uint16_t` result store is kept).
Returns the output sample, the updated statics, and the list of transport
exchanges performed as `(address, power-down mode)` pairs using the numeric
enum values (`eXPT2046_ADDR_X_POS = 5`, `eXPT2046_ADDR_Y_POS = 1`,
`eXPT2046_ADDR_Z1_POS = 3`, `eXPT2046_ADDR_YN = 4`;
`eXPT2046_PD_DEVICE_FULLY_ON = 3`, `eXPT2046_PD_VREF_ON = 2`).
Since `xpt2046_low_if_exchange` always returns `eXPT2046_OK`, the source's
status check on line 351 always passes and the statics are always refreshed
on a pressed cycle. -/
def xpt2046_read_data_from_controler (forceCalc : Int → Int → Int → Int)
    (inp : SamplerIn) (prev : SamplerPrev) :
    RawSample × SamplerPrev × List (Nat × Nat) :=
  if inp.intOn = true then
    let X := inp.rxX
    let Y := inp.rxY
    let force := u16 (forceCalc X inp.rxZ1 inp.rxZ2)
    (⟨X, Y, force, true⟩, ⟨X, Y, force⟩, [(5, 3), (1, 3), (3, 3), (4, 2)])
  else
    (⟨prev.X, prev.Y, prev.force, false⟩, prev, [])

/-- Write one slot of a filter ring buffer (`samp_buf[k] = v`).  Buffers are
modelled as total maps so that the source's store at index `N` — one past
the end of the `N`-slot array, undefined behaviour in C (see the C3 result)
— lands in a fresh slot that the averaging loop never reads. -/
def bufSet (b : Nat → Int) (k : Nat) (v : Int) : Nat → Int :=
  fun i => if i = k then v else b i

/-- Overwrite slots `0 .. N-1` of a filter ring buffer with `v` (the
touch-down history reset loop, `xpt2046.c` lines 395-400). -/
def bufFillN (N : Nat) (v : Int) (b : Nat → Int) : Nat → Int :=
  fun i => if i < N then v else b i

/-- Sum of buffer slots `0 .. n-1` (the summation loop, `xpt2046.c` lines
426-431). -/
def bufSumTo (b : Nat → Int) : Nat → Int
  | 0 => 0
  | n + 1 => bufSumTo b n + b n

/-- The statics of `xpt2046_filter_data` (`xpt2046.c` lines 385-387): the
three per-channel ring buffers of `xpt2046_filter_t`, the write index
`samp_cnt` and the previous-cycle touch flag `touch_prev`.  (The `sum`
fields are recomputed from scratch every invocation, so they carry no state
between calls.) -/
structure FilterState where
  xBuf : Nat → Int
  yBuf : Nat → Int
  fBuf : Nat → Int
  sampCnt : Nat
  touchPrev : Bool

/-- The zero-initialised filter statics at module start-up. -/
def filtInit : FilterState :=
  ⟨fun _ => 0, fun _ => 0, fun _ => 0, 0, false⟩

/-- Embedding of `xpt2046_filter_data` (`xpt2046.c` lines 383-437) with
window depth `N = XPT2046_FILTER_WIN_SAMP`: on a no-touch-to-touch edge
every slot of every channel buffer is first overwritten with the current
sample; the sample is stored at `samp_cnt`; the index is advanced by
`xpt2046_filter_samp_cnt_step`; each channel's `uint32_t` sum over slots
`0 .. N-1` is recomputed and the `uint16_t` average `sum / N` is returned
together with the updated statics. -/
def xpt2046_filter_data (N : Nat) (X Y force : Int) (touch : Bool)
    (fs : FilterState) : (Int × Int × Int) × FilterState :=
  let fs1 := if touch = true ∧ fs.touchPrev = false then
      { fs with xBuf := bufFillN N X fs.xBuf, yBuf := bufFillN N Y fs.yBuf,
                fBuf := bufFillN N force fs.fBuf }
    else fs
  let fs2 := { fs1 with touchPrev := touch }
  let fs3 := { fs2 with xBuf := bufSet fs2.xBuf fs2.sampCnt X,
                        yBuf := bufSet fs2.yBuf fs2.sampCnt Y,
                        fBuf := bufSet fs2.fBuf fs2.sampCnt force }
  let fs4 := { fs3 with sampCnt := xpt2046_filter_samp_cnt_step N fs3.sampCnt }
  ((u16 (Int.tdiv (u32 (bufSumTo fs4.xBuf N)) (N : Int)),
    u16 (Int.tdiv (u32 (bufSumTo fs4.yBuf N)) (N : Int)),
    u16 (Int.tdiv (u32 (bufSumTo fs4.fBuf N)) (N : Int))), fs4)

/-- The complete mutable state touched by one `xpt2046_hndl` cycle: the
module state, the sampler's sample-and-hold statics and the filter statics. -/
structure HndlState where
  mod : ModState
  prevs : SamplerPrev
  filt : FilterState

/-- The whole-module state immediately after `xpt2046_init`. -/
def hndlInit (Dp : Points) : HndlState :=
  ⟨initState Dp, ⟨0, 0, 0⟩, filtInit⟩

/-- Embedding of `xpt2046_hndl` (`xpt2046.c` lines 285-316): read from the
controller, filter when compiled in (`filtEn` models the configuration
switch `XPT2046_FILTER_EN`, `N` the window `XPT2046_FILTER_WIN_SAMP`), map
through the calibration when `done`, store into `g_touch`, then run the
calibration FSM handler.  Returns the new state and the list of transport
exchanges performed this cycle. -/
def xpt2046_hndl (filtEn : Bool) (N : Nat) (maxX maxY : Int)
    (fc : Int → Int → Int → Int) (inp : SamplerIn) (tickNow : Int)
    (h : HndlState) : HndlState × List (Nat × Nat) :=
  let rd := xpt2046_read_data_from_controler fc inp h.prevs
  let raw := rd.1
  let fl := if filtEn = true
    then xpt2046_filter_data N raw.x raw.y raw.force raw.pressed h.filt
    else ((raw.x, raw.y, raw.force), h.filt)
  let XY := if h.mod.cal.done = true
    then xpt2046_calibrate_data maxX maxY fl.1.1 fl.1.2.1 h.mod.cal.factors
    else (fl.1.1, fl.1.2.1)
  let m1 := { h.mod with touch := ⟨XY.1, XY.2, fl.1.2.2, raw.pressed⟩ }
  (⟨xpt2046_cal_hndl tickNow m1, rd.2.1, fl.2⟩, rd.2.2)

/-- Iterated handler cycles over a list of per-cycle (sampler input, tick)
pairs. -/
def hndlRun (filtEn : Bool) (N : Nat) (maxX maxY : Int)
    (fc : Int → Int → Int → Int) (h : HndlState)
    (L : List (SamplerIn × Int)) : HndlState :=
  L.foldl (fun st p => (xpt2046_hndl filtEn N maxX maxY fc p.1 p.2 st).1) h

/-- Pressure formula stub for the C9 counterexample (identically zero; the
counterexample's discrepancy is in the x coordinate only). -/
def c9cexF : Int → Int → Int → Int := fun _ _ _ => 0

/-- C9 counterexample, state after two pressed handler cycles with the
filter compiled in (window depth 4, display 319 × 479, raw x readings 0
then 8): the touch-down cycle fills the window with 0 and stores session
x = 0; the second pressed cycle stores session x = 8 / 4 = 2. -/
def c9cexS2 : HndlState :=
  (xpt2046_hndl true 4 319 479 c9cexF ⟨true, 8, 0, 0, 0⟩ 2
    (xpt2046_hndl true 4 319 479 c9cexF ⟨true, 0, 0, 0, 0⟩ 1
      (hndlInit specAnchors)).1).1

/-- C9 counterexample, the touch-absent handler cycle that follows
`c9cexS2`: the sampler holds raw x = 8, but the filter re-inserts it and
recomputes the average. -/
def c9cexR3 : HndlState × List (Nat × Nat) :=
  xpt2046_hndl true 4 319 479 c9cexF ⟨false, 0, 0, 0, 0⟩ 3 c9cexS2

/-! ## Theorems -/

/-- Wrapping to `int32_t` is the identity on values already in range. -/
theorem i32_eq_self (x : Int) (h1 : -(2 ^ 31) ≤ x) (h2 : x < 2 ^ 31) : i32 x = x := by
  unfold i32
  have h : (x + 2 ^ 31) % 2 ^ 32 = x + 2 ^ 31 :=
    Int.emod_eq_of_lt (by omega) (by omega)
  omega

/-- Conversion to `uint16_t` is the identity on values already in range. -/
theorem u16_eq_self (x : Int) (h1 : 0 ≤ x) (h2 : x < 2 ^ 16) : u16 x = x :=
  Int.emod_eq_of_lt h1 (by omega)

/-- The X limiter returns a value inside `[0, maxX]` whenever `0 ≤ maxX`. -/
theorem limitX_bounds (maxX u : Int) (h : 0 ≤ maxX) :
    0 ≤ xpt2046_limit_cal_X_data maxX u ∧ xpt2046_limit_cal_X_data maxX u ≤ maxX := by
  unfold xpt2046_limit_cal_X_data
  split_ifs <;> omega

/-- The Y limiter returns a value inside `[0, maxY]` whenever `0 ≤ maxY`. -/
theorem limitY_bounds (maxY u : Int) (h : 0 ≤ maxY) :
    0 ≤ xpt2046_limit_cal_Y_data maxY u ∧ xpt2046_limit_cal_Y_data maxY u ≤ maxY := by
  unfold xpt2046_limit_cal_Y_data
  split_ifs <;> omega

/-- The X limiter is the identity inside the display range. -/
theorem limitX_eq_self (maxX u : Int) (h1 : 0 ≤ u) (h2 : u ≤ maxX) :
    xpt2046_limit_cal_X_data maxX u = u := by
  unfold xpt2046_limit_cal_X_data
  split_ifs <;> omega

/-- The Y limiter is the identity inside the display range. -/
theorem limitY_eq_self (maxY u : Int) (h1 : 0 ≤ u) (h2 : u ≤ maxY) :
    xpt2046_limit_cal_Y_data maxY u = u := by
  unfold xpt2046_limit_cal_Y_data
  split_ifs <;> omega

/-- Below-range values hit the lower clamp. -/
theorem limitX_neg (maxX u : Int) (h : u < 0) :
    xpt2046_limit_cal_X_data maxX u = 0 := by
  unfold xpt2046_limit_cal_X_data
  split_ifs <;> omega

/-- Above-range values hit the upper clamp. -/
theorem limitX_over (maxX u : Int) (h : u > maxX) (h0 : 0 ≤ maxX) :
    xpt2046_limit_cal_X_data maxX u = maxX := by
  unfold xpt2046_limit_cal_X_data
  split_ifs <;> omega

/-- Below-range values hit the lower clamp (Y axis). -/
theorem limitY_neg (maxY u : Int) (h : u < 0) :
    xpt2046_limit_cal_Y_data maxY u = 0 := by
  unfold xpt2046_limit_cal_Y_data
  split_ifs <;> omega

/-- Above-range values hit the upper clamp (Y axis). -/
theorem limitY_over (maxY u : Int) (h : u > maxY) (h0 : 0 ≤ maxY) :
    xpt2046_limit_cal_Y_data maxY u = maxY := by
  unfold xpt2046_limit_cal_Y_data
  split_ifs <;> omega

/-- C6: for every valid channel address, power-down mode and start bit (and
either configured resolution/reference mode), the control byte built by
`xpt2046_low_if_exchange` has bit 7 = start/source, bits 6-4 = channel
address, bit 3 = resolution mode, bit 2 = reference mode and bits 1-0 =
power-down mode; and decoding the big-endian 2-byte reply of the 3-byte
exchange whose payload carries a synthetic 12-bit (resp. 8-bit) conversion
value placed above the three reserved low bits recovers exactly that value. -/
theorem c6_codec_layout_and_roundtrip (addr pd start mode ref v : Nat)
    (ha : addr ≤ 7) (hp : pd ≤ 3) (hs : start ≤ 1) (hm : mode ≤ 1) (hr : ref ≤ 1) :
    xpt2046_control_byte addr pd mode ref start / 128 % 2 = start
    ∧ xpt2046_control_byte addr pd mode ref start / 16 % 8 = addr
    ∧ xpt2046_control_byte addr pd mode ref start / 8 % 2 = mode
    ∧ xpt2046_control_byte addr pd mode ref start / 4 % 2 = ref
    ∧ xpt2046_control_byte addr pd mode ref start % 4 = pd
    ∧ (v < 4096 →
        (xpt2046_low_if_exchange 0 ref addr pd start (v * 8 / 256) (v * 8 % 256)).2 = v)
    ∧ (v < 256 →
        (xpt2046_low_if_exchange 1 ref addr pd start (v * 8 / 256) (v * 8 % 256)).2 = v) := by
  unfold xpt2046_low_if_exchange xpt2046_control_byte xpt2046_result_decode
  norm_num
  refine ⟨by omega, by omega, by omega, by omega, by omega, ?_, ?_⟩
  · intro hv
    omega
  · intro hv
    omega

/-- Closed witness for C6 at address 5 (X position), fully-on power mode,
start bit 1, 12-bit resolution, differential reference, value 2747. -/
theorem c6_codec_layout_and_roundtrip_witness :
    xpt2046_control_byte 5 3 0 0 1 / 128 % 2 = 1
    ∧ xpt2046_control_byte 5 3 0 0 1 / 16 % 8 = 5
    ∧ xpt2046_control_byte 5 3 0 0 1 / 8 % 2 = 0
    ∧ xpt2046_control_byte 5 3 0 0 1 / 4 % 2 = 0
    ∧ xpt2046_control_byte 5 3 0 0 1 % 4 = 3
    ∧ (2747 < 4096 →
        (xpt2046_low_if_exchange 0 0 5 3 1 (2747 * 8 / 256) (2747 * 8 % 256)).2 = 2747)
    ∧ (2747 < 256 →
        (xpt2046_low_if_exchange 1 0 5 3 1 (2747 * 8 / 256) (2747 * 8 % 256)).2 = 2747) :=
  c6_codec_layout_and_roundtrip 5 3 1 0 0 2747
    (by decide) (by decide) (by decide) (by decide) (by decide)

/-- The filter write index equals the invocation count as long as the count
has not yet exceeded the buffer depth: the wrap test fires only after the
index has already reached `N`. -/
theorem filter_write_index_below (N k : Nat) (h : k ≤ N) :
    xpt2046_filter_write_index N k = k := by
  induction k with
  | zero => rfl
  | succ n ih =>
    have hn : n ≤ N := Nat.le_of_succ_le h
    unfold xpt2046_filter_write_index at ih ⊢
    rw [Function.iterate_succ_apply', ih hn]
    unfold xpt2046_filter_samp_cnt_step
    have hlt : ¬ n ≥ N := by omega
    simp [hlt]

/-- C3: the claim that every store of `xpt2046_filter_data` happens at a
write index strictly below the buffer depth `N` is violated by the source:
on the (N+1)-th invocation the static `samp_cnt` has value exactly `N`, so
the store `samp_buf[samp_cnt]` writes one slot past the end of the N-slot
buffer before the `>= N` wrap test resets the index. -/
theorem c3_filter_write_index_reaches_N (N : Nat) :
    xpt2046_filter_write_index N N = N ∧ ¬ xpt2046_filter_write_index N N < N := by
  have h := filter_write_index_below N N (Nat.le_refl N)
  exact ⟨h, by omega⟩

/-- C4: injecting a coefficient vector with `xpt2046_set_cal_factors` marks
the module calibrated and stores the factors, but the subsequent
`xpt2046_get_cal_factors` call writes nothing through the caller's output
buffer (the C body assigns the factors' address to its local pointer
parameter), so the injected vector is never returned: the get/set round
trip fails. -/
theorem c4_get_cal_factors_returns_nothing :
    xpt2046_is_calibrated
      (xpt2046_set_cal_factors ⟨1, 2, 3, 4, 5, 6, 7⟩ (initState specAnchors)) = true
    ∧ (xpt2046_set_cal_factors ⟨1, 2, 3, 4, 5, 6, 7⟩ (initState specAnchors)).cal.factors
        = ⟨1, 2, 3, 4, 5, 6, 7⟩
    ∧ xpt2046_get_cal_factors [0, 0, 0, 0, 0, 0, 0]
        (xpt2046_set_cal_factors ⟨1, 2, 3, 4, 5, 6, 7⟩ (initState specAnchors))
        = [0, 0, 0, 0, 0, 0, 0]
    ∧ xpt2046_get_cal_factors [0, 0, 0, 0, 0, 0, 0]
        (xpt2046_set_cal_factors ⟨1, 2, 3, 4, 5, 6, 7⟩ (initState specAnchors))
        ≠ [1, 2, 3, 4, 5, 6, 7] := by
  decide

/-- C2: with the collinear capture `collinearTp` the solver denominator
`factors[0]` is zero, yet the `calcFactors` cycle does not abort: it stores
the degenerate factors, schedules `normal` and still sets `done := true`
(and clears `busy`), so the calibration-complete flag is set and the next
calibrated cycle performs an unguarded division by `k0 == 0` in
`xpt2046_calibrate_data` (undefined behaviour in C). -/
theorem c2_collinear_capture_not_aborted :
    (calculate_factors_exact specAnchors collinearTp).k0 = 0
    ∧ (xpt2046_calculate_factors specAnchors collinearTp).k0 = 0
    ∧ (stepEvent c2State (Event.cycle 2 2 0 false 1)).cal.done = true
    ∧ (stepEvent c2State (Event.cycle 2 2 0 false 1)).cal.busy = false
    ∧ (stepEvent c2State (Event.cycle 2 2 0 false 1)).fsm.next = CalFsmState.normal
    ∧ (stepEvent c2State (Event.cycle 2 2 0 false 1)).cal.factors.k0 = 0 := by
  decide

/-- C5: for every raw input point and every factor vector with nonzero
denominator, the mapper's output lies within `[0, maxX] × [0, maxY]`
(display bounds at most the `uint16_t` range, as any display configuration
storing into `uint16_t` coordinates must satisfy): the final narrowing to
`uint16_t` never wraps and the result is never negative; and a (narrowed)
quotient falling outside the range is clamped to the corresponding
boundary. -/
theorem c5_mapper_output_clamped (maxX maxY X Y : Int) (f : Factors)
    (hX0 : 0 ≤ maxX) (hX1 : maxX ≤ 65535) (hY0 : 0 ≤ maxY) (hY1 : maxY ≤ 65535)
    (hk : f.k0 ≠ 0) :
    0 ≤ (xpt2046_calibrate_data maxX maxY X Y f).1
    ∧ (xpt2046_calibrate_data maxX maxY X Y f).1 ≤ maxX
    ∧ 0 ≤ (xpt2046_calibrate_data maxX maxY X Y f).2
    ∧ (xpt2046_calibrate_data maxX maxY X Y f).2 ≤ maxY
    ∧ (i32 (Int.tdiv (f.k1 * X + f.k2 * Y + f.k3) f.k0) < 0 →
        (xpt2046_calibrate_data maxX maxY X Y f).1 = 0)
    ∧ (i32 (Int.tdiv (f.k1 * X + f.k2 * Y + f.k3) f.k0) > maxX →
        (xpt2046_calibrate_data maxX maxY X Y f).1 = maxX)
    ∧ (i32 (Int.tdiv (f.k4 * X + f.k5 * Y + f.k6) f.k0) < 0 →
        (xpt2046_calibrate_data maxX maxY X Y f).2 = 0)
    ∧ (i32 (Int.tdiv (f.k4 * X + f.k5 * Y + f.k6) f.k0) > maxY →
        (xpt2046_calibrate_data maxX maxY X Y f).2 = maxY) := by
  have hbx := limitX_bounds maxX (i32 (Int.tdiv (f.k1 * X + f.k2 * Y + f.k3) f.k0)) hX0
  have hby := limitY_bounds maxY (i32 (Int.tdiv (f.k4 * X + f.k5 * Y + f.k6) f.k0)) hY0
  have hux := u16_eq_self (xpt2046_limit_cal_X_data maxX
      (i32 (Int.tdiv (f.k1 * X + f.k2 * Y + f.k3) f.k0))) hbx.1 (by omega)
  have huy := u16_eq_self (xpt2046_limit_cal_Y_data maxY
      (i32 (Int.tdiv (f.k4 * X + f.k5 * Y + f.k6) f.k0))) hby.1 (by omega)
  unfold xpt2046_calibrate_data
  simp only [hux, huy]
  refine ⟨hbx.1, hbx.2, hby.1, hby.2, ?_, ?_, ?_, ?_⟩
  · intro h
    rw [limitX_neg _ _ h]
  · intro h
    rw [limitX_over _ _ h hX0]
  · intro h
    rw [limitY_neg _ _ h]
  · intro h
    rw [limitY_over _ _ h hY0]

/-- Closed witness for C5: raw point (4000, 123) with factors whose quotient
overshoots a 320 × 480 display on X and undershoots on Y. -/
theorem c5_mapper_output_clamped_witness :
    0 ≤ (xpt2046_calibrate_data 319 479 4000 123 ⟨2, 1000, 0, 0, -1, 0, 0⟩).1
    ∧ (xpt2046_calibrate_data 319 479 4000 123 ⟨2, 1000, 0, 0, -1, 0, 0⟩).1 ≤ 319
    ∧ 0 ≤ (xpt2046_calibrate_data 319 479 4000 123 ⟨2, 1000, 0, 0, -1, 0, 0⟩).2
    ∧ (xpt2046_calibrate_data 319 479 4000 123 ⟨2, 1000, 0, 0, -1, 0, 0⟩).2 ≤ 479 := by
  have h := c5_mapper_output_clamped 319 479 4000 123 ⟨2, 1000, 0, 0, -1, 0, 0⟩
    (by decide) (by decide) (by decide) (by decide) (by decide)
  exact ⟨h.1, h.2.1, h.2.2.1, h.2.2.2.1⟩

/-- With exact factors, the X numerator of the mapper at captured point 0 is
exactly `k0` times the anchor's X coordinate (Cramer's rule). -/
theorem exact_num_x0 (Dp Tp : Points) :
    (calculate_factors_exact Dp Tp).k1 * Tp.p0.x
      + (calculate_factors_exact Dp Tp).k2 * Tp.p0.y
      + (calculate_factors_exact Dp Tp).k3
    = (calculate_factors_exact Dp Tp).k0 * Dp.p0.x := by
  simp only [calculate_factors_exact]
  ring

/-- Cramer identity, X axis, captured point 1. -/
theorem exact_num_x1 (Dp Tp : Points) :
    (calculate_factors_exact Dp Tp).k1 * Tp.p1.x
      + (calculate_factors_exact Dp Tp).k2 * Tp.p1.y
      + (calculate_factors_exact Dp Tp).k3
    = (calculate_factors_exact Dp Tp).k0 * Dp.p1.x := by
  simp only [calculate_factors_exact]
  ring

/-- Cramer identity, X axis, captured point 2. -/
theorem exact_num_x2 (Dp Tp : Points) :
    (calculate_factors_exact Dp Tp).k1 * Tp.p2.x
      + (calculate_factors_exact Dp Tp).k2 * Tp.p2.y
      + (calculate_factors_exact Dp Tp).k3
    = (calculate_factors_exact Dp Tp).k0 * Dp.p2.x := by
  simp only [calculate_factors_exact]
  ring

/-- Cramer identity, Y axis, captured point 0. -/
theorem exact_num_y0 (Dp Tp : Points) :
    (calculate_factors_exact Dp Tp).k4 * Tp.p0.x
      + (calculate_factors_exact Dp Tp).k5 * Tp.p0.y
      + (calculate_factors_exact Dp Tp).k6
    = (calculate_factors_exact Dp Tp).k0 * Dp.p0.y := by
  simp only [calculate_factors_exact]
  ring

/-- Cramer identity, Y axis, captured point 1. -/
theorem exact_num_y1 (Dp Tp : Points) :
    (calculate_factors_exact Dp Tp).k4 * Tp.p1.x
      + (calculate_factors_exact Dp Tp).k5 * Tp.p1.y
      + (calculate_factors_exact Dp Tp).k6
    = (calculate_factors_exact Dp Tp).k0 * Dp.p1.y := by
  simp only [calculate_factors_exact]
  ring

/-- Cramer identity, Y axis, captured point 2. -/
theorem exact_num_y2 (Dp Tp : Points) :
    (calculate_factors_exact Dp Tp).k4 * Tp.p2.x
      + (calculate_factors_exact Dp Tp).k5 * Tp.p2.y
      + (calculate_factors_exact Dp Tp).k6
    = (calculate_factors_exact Dp Tp).k0 * Dp.p2.y := by
  simp only [calculate_factors_exact]
  ring

/-- If both mapper numerators at a touch point are exact multiples of the
denominator by in-range display coordinates, the mapper returns exactly
those coordinates. -/
theorem mapper_exact_point (maxX maxY : Int) (f : Factors) (Tx Ty Dx Dy : Int)
    (hk : f.k0 ≠ 0)
    (hnx : f.k1 * Tx + f.k2 * Ty + f.k3 = f.k0 * Dx)
    (hny : f.k4 * Tx + f.k5 * Ty + f.k6 = f.k0 * Dy)
    (hDx0 : 0 ≤ Dx) (hDx1 : Dx ≤ maxX) (hMx : maxX ≤ 65535)
    (hDy0 : 0 ≤ Dy) (hDy1 : Dy ≤ maxY) (hMy : maxY ≤ 65535) :
    xpt2046_calibrate_data maxX maxY Tx Ty f = (Dx, Dy) := by
  simp only [xpt2046_calibrate_data]
  rw [hnx, hny, Int.mul_tdiv_cancel_left _ hk, Int.mul_tdiv_cancel_left _ hk,
      i32_eq_self Dx (by omega) (by omega), i32_eq_self Dy (by omega) (by omega),
      limitX_eq_self maxX Dx hDx0 hDx1, limitY_eq_self maxY Dy hDy0 hDy1,
      u16_eq_self Dx hDx0 (by omega), u16_eq_self Dy hDy0 (by omega)]

/-- C1 (amended): for every three (anchor, touch) point pairs with
non-collinear touch points, *provided no intermediate `int32_t` narrowing in
the solver overflows* (i.e. the factors the source computes coincide with
the exact wide-integer factors) and the anchors lie inside the display
rectangle (itself within the `uint16_t` range), applying
`xpt2046_calibrate_data` to captured touch point i returns anchor point i
exactly, for each i in {0, 1, 2} — the integer division is exact at the
defining points and the clamps are the identity there. -/
theorem c1_amended_calibration_exact_at_anchors (Dp Tp : Points) (maxX maxY : Int)
    (hnc : (calculate_factors_exact Dp Tp).k0 ≠ 0)
    (hof : xpt2046_calculate_factors Dp Tp = calculate_factors_exact Dp Tp)
    (hA : anchorsWithin Dp maxX maxY)
    (hMx : maxX ≤ 65535) (hMy : maxY ≤ 65535) :
    xpt2046_calibrate_data maxX maxY Tp.p0.x Tp.p0.y (xpt2046_calculate_factors Dp Tp)
      = (Dp.p0.x, Dp.p0.y)
    ∧ xpt2046_calibrate_data maxX maxY Tp.p1.x Tp.p1.y (xpt2046_calculate_factors Dp Tp)
      = (Dp.p1.x, Dp.p1.y)
    ∧ xpt2046_calibrate_data maxX maxY Tp.p2.x Tp.p2.y (xpt2046_calculate_factors Dp Tp)
      = (Dp.p2.x, Dp.p2.y) := by
  obtain ⟨⟨h0a, h0b, h0c, h0d⟩, ⟨h1a, h1b, h1c, h1d⟩, ⟨h2a, h2b, h2c, h2d⟩⟩ := hA
  rw [hof]
  exact ⟨mapper_exact_point maxX maxY _ _ _ _ _ hnc
          (exact_num_x0 Dp Tp) (exact_num_y0 Dp Tp) h0a h0b hMx h0c h0d hMy,
        mapper_exact_point maxX maxY _ _ _ _ _ hnc
          (exact_num_x1 Dp Tp) (exact_num_y1 Dp Tp) h1a h1b hMx h1c h1d hMy,
        mapper_exact_point maxX maxY _ _ _ _ _ hnc
          (exact_num_x2 Dp Tp) (exact_num_y2 Dp Tp) h2a h2b hMx h2c h2d hMy⟩

/-- Closed witness for C1 (amended): the spec's end-to-end scenario —
anchors (10,10), (300,10), (10,300), touch points (100,100), (2000,100),
(100,2000), display bounds 319 × 479.  No solver narrowing overflows and
the mapper reproduces each anchor exactly. -/
theorem c1_amended_calibration_exact_at_anchors_witness :
    xpt2046_calibrate_data 319 479 100 100
        (xpt2046_calculate_factors specAnchors ⟨⟨100, 100⟩, ⟨2000, 100⟩, ⟨100, 2000⟩⟩)
      = (10, 10)
    ∧ xpt2046_calibrate_data 319 479 2000 100
        (xpt2046_calculate_factors specAnchors ⟨⟨100, 100⟩, ⟨2000, 100⟩, ⟨100, 2000⟩⟩)
      = (300, 10)
    ∧ xpt2046_calibrate_data 319 479 100 2000
        (xpt2046_calculate_factors specAnchors ⟨⟨100, 100⟩, ⟨2000, 100⟩, ⟨100, 2000⟩⟩)
      = (10, 300) :=
  c1_amended_calibration_exact_at_anchors specAnchors ⟨⟨100, 100⟩, ⟨2000, 100⟩, ⟨100, 2000⟩⟩
    319 479 (by decide) (by decide) (by unfold anchorsWithin; decide) (by decide) (by decide)

/-- C1 counterexample: the claim as stated (for *every* non-collinear triple
of pairs) is false on the source.  With anchors `cexDp` and valid
`uint16_t` touch readings `cexTp` the exact denominator is 4294836225 ≠ 0
(non-collinear), but the source's `int32_t` narrowing wraps `factors[0]` to
-131071; the mapper's raw X quotient at captured point 0 is then negative,
so the clamp returns the lower boundary 0 for *any* display bound, while
anchor 0 has x = 100 — a discrepancy explained neither by clamping nor by
integer-division rounding. -/
theorem c1_counterexample_overflow_breaks_exactness :
    (calculate_factors_exact cexDp cexTp).k0 = 4294836225
    ∧ (xpt2046_calculate_factors cexDp cexTp).k0 = -131071
    ∧ Int.tdiv ((xpt2046_calculate_factors cexDp cexTp).k1 * 65535
          + (xpt2046_calculate_factors cexDp cexTp).k2 * 0
          + (xpt2046_calculate_factors cexDp cexTp).k3)
        (xpt2046_calculate_factors cexDp cexTp).k0 = -3276725
    ∧ xpt2046_calibrate_data 319 479 cexTp.p0.x cexTp.p0.y
        (xpt2046_calculate_factors cexDp cexTp) = (0, 0)
    ∧ cexDp.p0.x = 100 := by
  decide

/-- The FSM manager never changes the calibration data, and the state it
settles on for this cycle is always the scheduled `next` state. -/
theorem fms_manager_eff (t : Int) (s : ModState) :
    (xpt2046_fms_manager t s).cal = s.cal
    ∧ (xpt2046_fms_manager t s).fsm.cur = s.fsm.next
    ∧ (xpt2046_fms_manager t s).fsm.next = s.fsm.next := by
  unfold xpt2046_fms_manager
  split_ifs with h
  · exact ⟨rfl, rfl, rfl⟩
  · simp only [ne_eq, not_not] at h
    exact ⟨rfl, h, rfl⟩

/-- The P1 acquisition state leaves the calibration flags and the current
FSM state untouched, and either keeps the scheduled state or schedules P2. -/
theorem fsm_p1_acq_eff (s : ModState) :
    (xpt2046_fsm_p1_acq s).cal.start = s.cal.start
    ∧ (xpt2046_fsm_p1_acq s).cal.busy = s.cal.busy
    ∧ (xpt2046_fsm_p1_acq s).cal.done = s.cal.done
    ∧ (xpt2046_fsm_p1_acq s).fsm.cur = s.fsm.cur
    ∧ ((xpt2046_fsm_p1_acq s).fsm.next = s.fsm.next
        ∨ (xpt2046_fsm_p1_acq s).fsm.next = CalFsmState.p2Acq) := by
  simp only [xpt2046_fsm_p1_acq]
  split_ifs <;> simp

/-- The P2 acquisition state leaves the calibration flags and the current
FSM state untouched, and either keeps the scheduled state or schedules P3. -/
theorem fsm_p2_acq_eff (s : ModState) :
    (xpt2046_fsm_p2_acq s).cal.start = s.cal.start
    ∧ (xpt2046_fsm_p2_acq s).cal.busy = s.cal.busy
    ∧ (xpt2046_fsm_p2_acq s).cal.done = s.cal.done
    ∧ (xpt2046_fsm_p2_acq s).fsm.cur = s.fsm.cur
    ∧ ((xpt2046_fsm_p2_acq s).fsm.next = s.fsm.next
        ∨ (xpt2046_fsm_p2_acq s).fsm.next = CalFsmState.p3Acq) := by
  simp only [xpt2046_fsm_p2_acq]
  split_ifs <;> simp

/-- The P3 acquisition state leaves the calibration flags and the current
FSM state untouched, and either keeps the scheduled state or schedules the
solve phase. -/
theorem fsm_p3_acq_eff (s : ModState) :
    (xpt2046_fsm_p3_acq s).cal.start = s.cal.start
    ∧ (xpt2046_fsm_p3_acq s).cal.busy = s.cal.busy
    ∧ (xpt2046_fsm_p3_acq s).cal.done = s.cal.done
    ∧ (xpt2046_fsm_p3_acq s).fsm.cur = s.fsm.cur
    ∧ ((xpt2046_fsm_p3_acq s).fsm.next = s.fsm.next
        ∨ (xpt2046_fsm_p3_acq s).fsm.next = CalFsmState.calcFactors) := by
  simp only [xpt2046_fsm_p3_acq]
  split_ifs <;> simp

/-- The idle state preserves the strengthened invariant. -/
theorem fsm_normal_inv (s : ModState)
    (hcur : s.fsm.cur = CalFsmState.normal)
    (hnext : s.fsm.next = CalFsmState.normal)
    (hK2 : s.cal.busy = true → s.cal.done = false)
    (hK3 : s.cal.start = true → s.cal.done = false) :
    calInvStrong (xpt2046_fsm_normal s) := by
  unfold xpt2046_fsm_normal calInvStrong calFlagsInv
  split_ifs with h
  · have hd : s.cal.done = false := hK3 h
    refine ⟨⟨by simp, by simp [hd]⟩, by simp, ?_, by simp [hcur]⟩
    intro _
    exact ⟨rfl, rfl, hd⟩
  · exact ⟨⟨fun hc => h hc.2, hK2⟩, hK3,
      fun hc => absurd hc (by simp [hcur, hnext]), by simp [hcur]⟩

/-- The P1 acquisition state preserves the strengthened invariant. -/
theorem fsm_p1_acq_inv (s : ModState)
    (hcur : s.fsm.cur = CalFsmState.p1Acq)
    (hb : s.cal.busy = true) (hs : s.cal.start = false) (hd : s.cal.done = false) :
    calInvStrong (xpt2046_fsm_p1_acq s) := by
  obtain ⟨e1, e2, e3, e4, _⟩ := fsm_p1_acq_eff s
  unfold calInvStrong calFlagsInv
  rw [e1, e2, e3, e4, hcur, hb, hs, hd]
  simp

/-- The P2 acquisition state preserves the strengthened invariant. -/
theorem fsm_p2_acq_inv (s : ModState)
    (hcur : s.fsm.cur = CalFsmState.p2Acq)
    (hb : s.cal.busy = true) (hs : s.cal.start = false) (hd : s.cal.done = false) :
    calInvStrong (xpt2046_fsm_p2_acq s) := by
  obtain ⟨e1, e2, e3, e4, _⟩ := fsm_p2_acq_eff s
  unfold calInvStrong calFlagsInv
  rw [e1, e2, e3, e4, hcur, hb, hs, hd]
  simp

/-- The P3 acquisition state preserves the strengthened invariant. -/
theorem fsm_p3_acq_inv (s : ModState)
    (hcur : s.fsm.cur = CalFsmState.p3Acq)
    (hb : s.cal.busy = true) (hs : s.cal.start = false) (hd : s.cal.done = false) :
    calInvStrong (xpt2046_fsm_p3_acq s) := by
  obtain ⟨e1, e2, e3, e4, _⟩ := fsm_p3_acq_eff s
  unfold calInvStrong calFlagsInv
  rw [e1, e2, e3, e4, hcur, hb, hs, hd]
  simp

/-- The solve phase re-establishes the strengthened invariant (busy cleared,
done set, state scheduled back to idle). -/
theorem fsm_calc_inv (s : ModState)
    (hcur : s.fsm.cur = CalFsmState.calcFactors)
    (hs : s.cal.start = false) :
    calInvStrong (xpt2046_fsm_calc_factors s) := by
  unfold xpt2046_fsm_calc_factors calInvStrong calFlagsInv
  simp [hcur, hs]

/-- One event preserves the strengthened calibration invariant, provided a
coefficient injection only happens while neither requested nor in progress. -/
theorem stepEvent_preserves_calInvStrong (s : ModState) (e : Event)
    (hK : calInvStrong s)
    (hSafe : isSetFactors e = true → s.cal.busy = false ∧ s.cal.start = false) :
    calInvStrong (stepEvent s e) := by
  obtain ⟨⟨hK1, hK2⟩, hK3, hK4, hK5⟩ := hK
  cases e with
  | startCal =>
    simp only [stepEvent, xpt2046_start_calibration]
    split_ifs with h1 h2
    · unfold calInvStrong calFlagsInv
      refine ⟨⟨by simp [h2], by simp [h2]⟩, by simp, ?_, hK5⟩
      intro h
      exact absurd (hK4 h).1 (by simp [h2])
    · exact ⟨⟨hK1, hK2⟩, hK3, hK4, hK5⟩
    · exact ⟨⟨hK1, hK2⟩, hK3, hK4, hK5⟩
  | setFactors f =>
    obtain ⟨hb, hs⟩ := hSafe rfl
    simp only [stepEvent, xpt2046_set_cal_factors]
    unfold calInvStrong calFlagsInv
    refine ⟨⟨by simp [hb], by simp [hb]⟩, by simp [hs], ?_, hK5⟩
    intro h
    exact absurd (hK4 h).1 (by simp [hb])
  | cycle page col force pressed tickNow =>
    simp only [stepEvent, xpt2046_cal_hndl]
    have m := fms_manager_eff tickNow { s with touch := ⟨page, col, force, pressed⟩ }
    generalize hg :
      xpt2046_fms_manager tickNow { s with touch := ⟨page, col, force, pressed⟩ } = s1 at m ⊢
    obtain ⟨hc, hcur, hnext⟩ := m
    rw [hcur]
    cases hn : s.fsm.next with
    | normal =>
      show calInvStrong (xpt2046_fsm_normal s1)
      refine fsm_normal_inv s1 (by rw [hcur, hn]) (by rw [hnext, hn]) ?_ ?_
      · rw [hc]
        exact hK2
      · rw [hc]
        exact hK3
    | p1Acq =>
      show calInvStrong (xpt2046_fsm_p1_acq s1)
      have hfl := hK4 (by simp [hn])
      exact fsm_p1_acq_inv s1 (by rw [hcur, hn])
        (by rw [hc]; exact hfl.1) (by rw [hc]; exact hfl.2.1) (by rw [hc]; exact hfl.2.2)
    | p2Acq =>
      show calInvStrong (xpt2046_fsm_p2_acq s1)
      have hfl := hK4 (by simp [hn])
      exact fsm_p2_acq_inv s1 (by rw [hcur, hn])
        (by rw [hc]; exact hfl.1) (by rw [hc]; exact hfl.2.1) (by rw [hc]; exact hfl.2.2)
    | p3Acq =>
      show calInvStrong (xpt2046_fsm_p3_acq s1)
      have hfl := hK4 (by simp [hn])
      exact fsm_p3_acq_inv s1 (by rw [hcur, hn])
        (by rw [hc]; exact hfl.1) (by rw [hc]; exact hfl.2.1) (by rw [hc]; exact hfl.2.2)
    | calcFactors =>
      show calInvStrong (xpt2046_fsm_calc_factors s1)
      have hfl := hK4 (by simp [hn])
      exact fsm_calc_inv s1 (by rw [hcur, hn]) (by rw [hc]; exact hfl.2.1)

/-- A whole safe event run preserves the strengthened invariant. -/
theorem runEvents_preserves_calInvStrong (s : ModState) (evs : List Event)
    (hK : calInvStrong s) (hSafe : setFactorsSafe s evs = true) :
    calInvStrong (runEvents s evs) := by
  induction evs generalizing s with
  | nil => exact hK
  | cons e t ih =>
    simp only [setFactorsSafe, Bool.and_eq_true] at hSafe
    obtain ⟨h1, h2⟩ := hSafe
    refine ih (stepEvent s e) (stepEvent_preserves_calInvStrong s e hK ?_) h2
    intro hset
    rw [hset] at h1
    simp only [Bool.not_true, Bool.false_or, Bool.and_eq_true, Bool.not_eq_true'] at h1
    exact h1

/-- C7 (corrected): along every run of handler cycles and exposed
operations from the initialised module state in which coefficients are
never injected while a calibration is requested or in progress, after every
event the calibration flags satisfy: in-progress and requested are never
both true, and done is false whenever in-progress is true. -/
theorem c7_amended_flags_invariant (Dp : Points) (evs : List Event)
    (hSafe : setFactorsSafe (initState Dp) evs = true) :
    calFlagsInv (runEvents (initState Dp) evs) := by
  have hK : calInvStrong (initState Dp) := by
    unfold calInvStrong calFlagsInv initState
    simp
  exact (runEvents_preserves_calInvStrong _ _ hK hSafe).1

/-- Closed witness for C7 (amended): a safe run — inject coefficients while
idle, then request and run one cycle — ends with the invariant intact. -/
theorem c7_amended_flags_invariant_witness :
    setFactorsSafe (initState specAnchors)
      [Event.setFactors ⟨9, 8, 7, 6, 5, 4, 3⟩, Event.startCal,
       Event.cycle 0 0 0 false 1] = true
    ∧ calFlagsInv (runEvents (initState specAnchors)
      [Event.setFactors ⟨9, 8, 7, 6, 5, 4, 3⟩, Event.startCal,
       Event.cycle 0 0 0 false 1]) :=
  ⟨by decide,
   c7_amended_flags_invariant specAnchors
     [Event.setFactors ⟨9, 8, 7, 6, 5, 4, 3⟩, Event.startCal,
      Event.cycle 0 0 0 false 1] (by decide)⟩

/-- C7 counterexample: the claim as stated fails on the source.  Injecting
coefficients with `xpt2046_set_cal_factors` (an exposed operation) while a
calibration is in progress — request, one handler cycle (the engine becomes
busy), then inject — leaves the module both in-progress and done,
violating the claimed invariant at an operation boundary. -/
theorem c7_counterexample_inject_while_busy :
    (runEvents (initState specAnchors)
        [Event.startCal, Event.cycle 0 0 0 false 1,
         Event.setFactors ⟨1, 1, 1, 1, 1, 1, 1⟩]).cal.busy = true
    ∧ (runEvents (initState specAnchors)
        [Event.startCal, Event.cycle 0 0 0 false 1,
         Event.setFactors ⟨1, 1, 1, 1, 1, 1, 1⟩]).cal.done = true
    ∧ ¬ calFlagsInv (runEvents (initState specAnchors)
        [Event.startCal, Event.cycle 0 0 0 false 1,
         Event.setFactors ⟨1, 1, 1, 1, 1, 1, 1⟩]) := by
  refine ⟨by decide, by decide, ?_⟩
  intro h
  exact absurd (h.2 (by decide)) (by decide)

/-- C8: requesting a calibration while one is in progress returns the
`eXPT2046_CAL_IN_PROGRESS` status and leaves the whole module state — in
particular the stored coefficients and every calibration flag — unchanged. -/
theorem c8_request_while_busy_rejected (s : ModState)
    (hInit : s.isInit = true) (hBusy : s.cal.busy = true) :
    xpt2046_start_calibration s = (Status.calInProgress, s) := by
  unfold xpt2046_start_calibration
  simp [hInit, hBusy]

/-- Closed witness for C8: after a request and one handler cycle the engine
is busy, and a second request is rejected without touching the state. -/
theorem c8_request_while_busy_rejected_witness :
    xpt2046_start_calibration
      (runEvents (initState specAnchors) [Event.startCal, Event.cycle 0 0 0 false 1])
    = (Status.calInProgress,
       runEvents (initState specAnchors) [Event.startCal, Event.cycle 0 0 0 false 1]) :=
  c8_request_while_busy_rejected
    (runEvents (initState specAnchors) [Event.startCal, Event.cycle 0 0 0 false 1])
    (by decide) (by decide)

/-- A single event that is neither a coefficient injection nor a cycle
executing the solve phase cannot set the calibration-done flag. -/
theorem stepEvent_preserves_done_false (s : ModState) (e : Event)
    (hdone : s.cal.done = false)
    (hNoInj : isSetFactors e = false)
    (hNoCalc : cycleExecutesCalc s e = false) :
    (stepEvent s e).cal.done = false := by
  cases e with
  | setFactors f => simp [isSetFactors] at hNoInj
  | startCal =>
    simp only [stepEvent, xpt2046_start_calibration]
    split_ifs <;> simpa using hdone
  | cycle page col force pressed tickNow =>
    simp only [stepEvent, xpt2046_cal_hndl]
    simp only [cycleExecutesCalc] at hNoCalc
    have m := fms_manager_eff tickNow { s with touch := ⟨page, col, force, pressed⟩ }
    generalize hg :
      xpt2046_fms_manager tickNow { s with touch := ⟨page, col, force, pressed⟩ } = s1
      at m hNoCalc ⊢
    obtain ⟨hc, hcur, hnext⟩ := m
    have hd1 : s1.cal.done = false := by
      rw [hc]
      exact hdone
    rw [hcur] at hNoCalc ⊢
    cases hn : s.fsm.next with
    | normal =>
      show (xpt2046_fsm_normal s1).cal.done = false
      unfold xpt2046_fsm_normal
      split_ifs <;> simpa using hd1
    | p1Acq =>
      show (xpt2046_fsm_p1_acq s1).cal.done = false
      rw [(fsm_p1_acq_eff s1).2.2.1]
      exact hd1
    | p2Acq =>
      show (xpt2046_fsm_p2_acq s1).cal.done = false
      rw [(fsm_p2_acq_eff s1).2.2.1]
      exact hd1
    | p3Acq =>
      show (xpt2046_fsm_p3_acq s1).cal.done = false
      rw [(fsm_p3_acq_eff s1).2.2.1]
      exact hd1
    | calcFactors =>
      rw [hn] at hNoCalc
      simp at hNoCalc

/-- Along a run with no coefficient injection and no solve-phase execution,
the calibration-done flag stays false. -/
theorem runEvents_preserves_done_false (s : ModState) (evs : List Event)
    (hdone : s.cal.done = false)
    (hNoInj : (evs.all fun e => !isSetFactors e) = true)
    (hNoCalc : noCalcExec s evs = true) :
    (runEvents s evs).cal.done = false := by
  induction evs generalizing s with
  | nil => exact hdone
  | cons e t ih =>
    simp only [List.all_cons, Bool.and_eq_true, Bool.not_eq_true'] at hNoInj
    simp only [noCalcExec, Bool.and_eq_true, Bool.not_eq_true'] at hNoCalc
    exact ih (stepEvent s e)
      (stepEvent_preserves_done_false s e hdone hNoInj.1 hNoCalc.1)
      (by simpa using hNoInj.2) hNoCalc.2

/-- C10: on an initialised, non-busy module, a calibration request succeeds
and immediately clears the calibration-done flag — even if a previous
calibration had completed or coefficients had been injected — and
`xpt2046_is_calibrated` keeps returning false along every subsequent run of
handler cycles and requests (no injections) until a cycle actually executes
the `calcFactors` phase. -/
theorem c10_request_clears_done_until_calc (s : ModState) (evs : List Event)
    (hInit : s.isInit = true) (hBusy : s.cal.busy = false)
    (hNoInj : (evs.all fun e => !isSetFactors e) = true)
    (hNoCalc : noCalcExec (xpt2046_start_calibration s).2 evs = true) :
    (xpt2046_start_calibration s).1 = Status.ok
    ∧ xpt2046_is_calibrated (xpt2046_start_calibration s).2 = false
    ∧ xpt2046_is_calibrated (runEvents (xpt2046_start_calibration s).2 evs) = false := by
  have hreq : xpt2046_start_calibration s
      = (Status.ok, { s with cal := { s.cal with start := true, done := false } }) := by
    unfold xpt2046_start_calibration
    simp [hInit, hBusy]
  rw [hreq] at hNoCalc ⊢
  refine ⟨rfl, rfl, ?_⟩
  exact runEvents_preserves_done_false _ evs rfl hNoInj hNoCalc

/-- Closed witness for C10: start from a state whose calibration had been
completed by injection (`done = true`), request calibration, and run two
cycles (one idle pickup, one P1 entry): `xpt2046_is_calibrated` is false
immediately after the request and after both cycles. -/
theorem c10_request_clears_done_until_calc_witness :
    (xpt2046_start_calibration
        (xpt2046_set_cal_factors ⟨1, 2, 3, 4, 5, 6, 7⟩ (initState specAnchors))).1
      = Status.ok
    ∧ xpt2046_is_calibrated
        (xpt2046_start_calibration
          (xpt2046_set_cal_factors ⟨1, 2, 3, 4, 5, 6, 7⟩ (initState specAnchors))).2
      = false
    ∧ xpt2046_is_calibrated
        (runEvents
          (xpt2046_start_calibration
            (xpt2046_set_cal_factors ⟨1, 2, 3, 4, 5, 6, 7⟩ (initState specAnchors))).2
          [Event.cycle 0 0 0 false 1, Event.cycle 5 6 7 true 2])
      = false :=
  c10_request_clears_done_until_calc
    (xpt2046_set_cal_factors ⟨1, 2, 3, 4, 5, 6, 7⟩ (initState specAnchors))
    [Event.cycle 0 0 0 false 1, Event.cycle 5 6 7 true 2]
    (by decide) (by decide) (by decide) (by decide)

/-- The FSM manager never changes `g_touch`. -/
theorem fms_manager_touch (t : Int) (s : ModState) :
    (xpt2046_fms_manager t s).touch = s.touch := by
  unfold xpt2046_fms_manager
  split_ifs <;> rfl

/-- The idle state never changes `g_touch`. -/
theorem fsm_normal_touch (s : ModState) :
    (xpt2046_fsm_normal s).touch = s.touch := by
  unfold xpt2046_fsm_normal
  split_ifs <;> rfl

/-- The P1 acquisition state never changes `g_touch`. -/
theorem fsm_p1_acq_touch (s : ModState) :
    (xpt2046_fsm_p1_acq s).touch = s.touch := by
  simp only [xpt2046_fsm_p1_acq]
  split_ifs <;> rfl

/-- The P2 acquisition state never changes `g_touch`. -/
theorem fsm_p2_acq_touch (s : ModState) :
    (xpt2046_fsm_p2_acq s).touch = s.touch := by
  simp only [xpt2046_fsm_p2_acq]
  split_ifs <;> rfl

/-- The P3 acquisition state never changes `g_touch`. -/
theorem fsm_p3_acq_touch (s : ModState) :
    (xpt2046_fsm_p3_acq s).touch = s.touch := by
  simp only [xpt2046_fsm_p3_acq]
  split_ifs <;> rfl

/-- The solve phase never changes `g_touch`. -/
theorem fsm_calc_factors_touch (s : ModState) :
    (xpt2046_fsm_calc_factors s).touch = s.touch := rfl

/-- The whole calibration FSM handler never changes `g_touch`. -/
theorem cal_hndl_touch (t : Int) (m : ModState) :
    (xpt2046_cal_hndl t m).touch = m.touch := by
  simp only [xpt2046_cal_hndl]
  have hm : (xpt2046_fms_manager t m).touch = m.touch := fms_manager_touch t m
  generalize hg : xpt2046_fms_manager t m = m1 at hm ⊢
  cases hc : m1.fsm.cur with
  | normal =>
    show (xpt2046_fsm_normal m1).touch = m.touch
    rw [fsm_normal_touch, hm]
  | p1Acq =>
    show (xpt2046_fsm_p1_acq m1).touch = m.touch
    rw [fsm_p1_acq_touch, hm]
  | p2Acq =>
    show (xpt2046_fsm_p2_acq m1).touch = m.touch
    rw [fsm_p2_acq_touch, hm]
  | p3Acq =>
    show (xpt2046_fsm_p3_acq m1).touch = m.touch
    rw [fsm_p3_acq_touch, hm]
  | calcFactors =>
    show (xpt2046_fsm_calc_factors m1).touch = m.touch
    rw [fsm_calc_factors_touch, hm]

/-- Any touch-absent handler cycle — with or without the filter — performs
no transport exchanges and stores `pressed = false` into the session state. -/
theorem hndl_not_pressed_no_exchange (filtEn : Bool) (N : Nat) (maxX maxY : Int)
    (fc : Int → Int → Int → Int) (inp : SamplerIn) (t : Int) (h : HndlState)
    (hI : inp.intOn = false) :
    (xpt2046_hndl filtEn N maxX maxY fc inp t h).2 = []
    ∧ (xpt2046_hndl filtEn N maxX maxY fc inp t h).1.mod.touch.pressed = false := by
  simp only [xpt2046_hndl, xpt2046_read_data_from_controler, hI]
  refine ⟨by simp, ?_⟩
  rw [cal_hndl_touch]
  simp

/-- A pressed handler cycle with the filter compiled out stores the
(optionally mapped) raw reading into the session state and latches the raw
reading into the sample-and-hold statics. -/
theorem hndl_pressed_no_filter (N : Nat) (maxX maxY : Int)
    (fc : Int → Int → Int → Int) (inp : SamplerIn) (t : Int) (h : HndlState)
    (hI : inp.intOn = true) :
    (xpt2046_hndl false N maxX maxY fc inp t h).1.mod.touch
      = ⟨(if h.mod.cal.done = true
          then xpt2046_calibrate_data maxX maxY inp.rxX inp.rxY h.mod.cal.factors
          else (inp.rxX, inp.rxY)).1,
         (if h.mod.cal.done = true
          then xpt2046_calibrate_data maxX maxY inp.rxX inp.rxY h.mod.cal.factors
          else (inp.rxX, inp.rxY)).2,
         u16 (fc inp.rxX inp.rxZ1 inp.rxZ2), true⟩
    ∧ (xpt2046_hndl false N maxX maxY fc inp t h).1.prevs
      = ⟨inp.rxX, inp.rxY, u16 (fc inp.rxX inp.rxZ1 inp.rxZ2)⟩ := by
  simp only [xpt2046_hndl, xpt2046_read_data_from_controler, hI]
  refine ⟨?_, by simp⟩
  rw [cal_hndl_touch]
  simp

/-- A touch-absent handler cycle with the filter compiled out stores the
(optionally mapped) held reading with `pressed = false`, leaves the
sample-and-hold statics unchanged and performs no transport exchanges. -/
theorem hndl_not_pressed_no_filter (N : Nat) (maxX maxY : Int)
    (fc : Int → Int → Int → Int) (inp : SamplerIn) (t : Int) (h : HndlState)
    (hI : inp.intOn = false) :
    (xpt2046_hndl false N maxX maxY fc inp t h).1.mod.touch
      = ⟨(if h.mod.cal.done = true
          then xpt2046_calibrate_data maxX maxY h.prevs.X h.prevs.Y h.mod.cal.factors
          else (h.prevs.X, h.prevs.Y)).1,
         (if h.mod.cal.done = true
          then xpt2046_calibrate_data maxX maxY h.prevs.X h.prevs.Y h.mod.cal.factors
          else (h.prevs.X, h.prevs.Y)).2,
         h.prevs.force, false⟩
    ∧ (xpt2046_hndl false N maxX maxY fc inp t h).1.prevs = h.prevs
    ∧ (xpt2046_hndl false N maxX maxY fc inp t h).2 = [] := by
  simp only [xpt2046_hndl, xpt2046_read_data_from_controler, hI]
  refine ⟨?_, by simp, by simp⟩
  rw [cal_hndl_touch]
  simp

/-- A run of touch-absent handler cycles (filter compiled out) leaves the
sample-and-hold statics unchanged. -/
theorem hndlRun_not_pressed_prevs (N : Nat) (maxX maxY : Int)
    (fc : Int → Int → Int → Int) (h : HndlState) (L : List (SamplerIn × Int))
    (hL : ∀ p ∈ L, p.1.intOn = false) :
    (hndlRun false N maxX maxY fc h L).prevs = h.prevs := by
  induction L generalizing h with
  | nil => rfl
  | cons p tl ih =>
    have hp : p.1.intOn = false := hL p (List.mem_cons_self p tl)
    have hstep := (hndl_not_pressed_no_filter N maxX maxY fc p.1 p.2 h hp).2.1
    show (hndlRun false N maxX maxY fc
      ((xpt2046_hndl false N maxX maxY fc p.1 p.2 h).1) tl).prevs = h.prevs
    rw [ih _ (fun q hq => hL q (List.mem_cons_of_mem p hq)), hstep]

/-- C9 counterexample: the claim as stated is false on the source with the
noise filter compiled in (spec sections 2/4.3; window depth here 4).  After
a touch-down cycle with raw x = 0 and a pressed cycle with raw x = 8 the
touch session state holds x = 8 / 4 = 2; the following touch-absent cycle
performs no exchanges and stores pressed = false, but re-inserts the held
raw x = 8 into the averaging window and stores the recomputed average
x = 16 / 4 = 4 — not the immediately preceding pressed cycle's session
value 2. -/
theorem c9_counterexample_filter_changes_held_session :
    c9cexS2.mod.touch.page = 2
    ∧ c9cexS2.mod.touch.pressed = true
    ∧ c9cexR3.2 = []
    ∧ c9cexR3.1.mod.touch.pressed = false
    ∧ c9cexR3.1.mod.touch.page = 4
    ∧ ¬ c9cexR3.1.mod.touch.page = c9cexS2.mod.touch.page := by
  decide

/-- C9 (amended): every touch-absent handler cycle performs no transport
exchanges and stores `pressed = false` into the touch session state, with
or without the filter; and with the filter compiled out, if the
calibration-done flag and factors are unchanged since the immediately
preceding pressed cycle, the touch session state after a touch-absent cycle
holds exactly that pressed cycle's session x, y and pressure values,
however many touch-absent cycles intervene. -/
theorem c9_amended_session_hold (filtEn : Bool) (N : Nat) (maxX maxY : Int)
    (fc : Int → Int → Int → Int)
    (g : HndlState) (inpG : SamplerIn) (tG : Int) (hG : inpG.intOn = false)
    (h : HndlState) (inpP : SamplerIn) (tP : Int) (hP : inpP.intOn = true)
    (L : List (SamplerIn × Int)) (hL : ∀ p ∈ L, p.1.intOn = false)
    (inpN : SamplerIn) (tN : Int) (hN : inpN.intOn = false)
    (hcalDone : (hndlRun false N maxX maxY fc
        (xpt2046_hndl false N maxX maxY fc inpP tP h).1 L).mod.cal.done
        = h.mod.cal.done)
    (hcalFac : (hndlRun false N maxX maxY fc
        (xpt2046_hndl false N maxX maxY fc inpP tP h).1 L).mod.cal.factors
        = h.mod.cal.factors) :
    (xpt2046_hndl filtEn N maxX maxY fc inpG tG g).2 = []
    ∧ (xpt2046_hndl filtEn N maxX maxY fc inpG tG g).1.mod.touch.pressed = false
    ∧ (xpt2046_hndl false N maxX maxY fc inpN tN
        (hndlRun false N maxX maxY fc
          (xpt2046_hndl false N maxX maxY fc inpP tP h).1 L)).1.mod.touch
      = ⟨(xpt2046_hndl false N maxX maxY fc inpP tP h).1.mod.touch.page,
         (xpt2046_hndl false N maxX maxY fc inpP tP h).1.mod.touch.col,
         (xpt2046_hndl false N maxX maxY fc inpP tP h).1.mod.touch.force, false⟩ := by
  obtain ⟨hex, hpr⟩ := hndl_not_pressed_no_exchange filtEn N maxX maxY fc inpG tG g hG
  refine ⟨hex, hpr, ?_⟩
  obtain ⟨ht1, hv1⟩ := hndl_pressed_no_filter N maxX maxY fc inpP tP h hP
  obtain ⟨htN, -, -⟩ := hndl_not_pressed_no_filter N maxX maxY fc inpN tN
    (hndlRun false N maxX maxY fc (xpt2046_hndl false N maxX maxY fc inpP tP h).1 L) hN
  rw [htN, ht1, hndlRun_not_pressed_prevs N maxX maxY fc _ L hL, hv1,
      hcalDone, hcalFac]

/-- Closed witness for C9 (amended): a pressed cycle reading (100, 200)
with pressure references (10, 20), one intervening touch-absent cycle, then
a touch-absent cycle on an uncalibrated module, window depth 4, display
319 × 479; plus a generic touch-absent cycle with the filter compiled in. -/
theorem c9_amended_session_hold_witness :
    (xpt2046_hndl true 4 319 479 c9cexF ⟨false, 7, 7, 7, 7⟩ 5
        (hndlInit specAnchors)).2 = []
    ∧ (xpt2046_hndl true 4 319 479 c9cexF ⟨false, 7, 7, 7, 7⟩ 5
        (hndlInit specAnchors)).1.mod.touch.pressed = false
    ∧ (xpt2046_hndl false 4 319 479 c9cexF ⟨false, 5, 5, 5, 5⟩ 3
        (hndlRun false 4 319 479 c9cexF
          (xpt2046_hndl false 4 319 479 c9cexF ⟨true, 100, 200, 10, 20⟩ 1
            (hndlInit specAnchors)).1
          [(⟨false, 1, 2, 3, 4⟩, 2)])).1.mod.touch
      = ⟨(xpt2046_hndl false 4 319 479 c9cexF ⟨true, 100, 200, 10, 20⟩ 1
            (hndlInit specAnchors)).1.mod.touch.page,
         (xpt2046_hndl false 4 319 479 c9cexF ⟨true, 100, 200, 10, 20⟩ 1
            (hndlInit specAnchors)).1.mod.touch.col,
         (xpt2046_hndl false 4 319 479 c9cexF ⟨true, 100, 200, 10, 20⟩ 1
            (hndlInit specAnchors)).1.mod.touch.force, false⟩ :=
  c9_amended_session_hold true 4 319 479 c9cexF
    (hndlInit specAnchors) ⟨false, 7, 7, 7, 7⟩ 5 (by decide)
    (hndlInit specAnchors) ⟨true, 100, 200, 10, 20⟩ 1 (by decide)
    [(⟨false, 1, 2, 3, 4⟩, 2)] (by decide)
    ⟨false, 5, 5, 5, 5⟩ 3 (by decide) (by decide) (by decide)

end XPT2046
